import Mathlib

/-!
Shallow embedding of the session/relay server in `src/server/app.py` of the
relic-rush-game repository, together with proofs about its handlers.

The module-level dictionaries `sessions` and `socket_map` become fields of
`ServerState`; each SocketIO handler becomes a Lean function from its inputs
(the transport-assigned connection id `sid` and the inbound payload dict) and
the current state to the new state plus the list of `emit` calls it issues.
Python dicts are modelled as association lists over `String` keys; payload
values are a small JSON-like type `Val` covering exactly what the source
stores (None, strings, numbers).  Fallible Python operations (subscripting a
dict with a possibly-absent key) return `Except PyErr`.  External I/O — the
UDP-socket trick of `get_local_ip` and `uuid.uuid4` — is passed in as a
parameter, matching the spec's designation of both as external collaborators.
-/

set_option autoImplicit false

namespace RelicRush

/-- A Python value as it occurs in the payload dicts the source reads and
builds: None, a string, or an integer. -/
inductive Val where
  | none
  | str (s : String)
  | int (n : Int)
  deriving DecidableEq, Repr

/-- A Python dict with string keys, as received from / sent to the wire. -/
abbrev Dict := List (String × Val)

/-- First-match association-list lookup: the model of looking a key up in a
Python dict (the tables below never hold duplicate keys). -/
def alookup {α : Type} (l : List (String × α)) (k : String) : Option α :=
  match l with
  | [] => Option.none
  | (k2, v) :: rest => if k2 = k then some v else alookup rest k

/-- Python `d.get(k)`: the stored value, or None when the key is absent. -/
def Dict.get (d : Dict) (k : String) : Val :=
  (alookup d k).getD Val.none

/-- Python `d.get(k, default)`: the stored value, or `default` when the key
is absent. -/
def Dict.getD (d : Dict) (k : String) (default : Val) : Val :=
  (alookup d k).getD default

/-- The Python exceptions the embedded handlers can raise. -/
inductive PyErr where
  | keyError (k : String)
  deriving DecidableEq, Repr

/-- Python `d[k]`: the stored value, or a `KeyError` when the key is absent. -/
def Dict.index (d : Dict) (k : String) : Except PyErr Val :=
  match alookup d k with
  | some v => Except.ok v
  | Option.none => Except.error (PyErr.keyError k)

/-- Python `d[k] = v`: overwrite the entry for `k`, or append one. -/
def dictSet {α : Type} (l : List (String × α)) (k : String) (v : α) :
    List (String × α) :=
  match l with
  | [] => [(k, v)]
  | (k2, w) :: rest =>
    if k2 = k then (k, v) :: rest else (k2, w) :: dictSet rest k v

/-- Python `d.pop(k, None)`: the removed value (if any), and the dict with
the entry for `k` removed. -/
def dictPop {α : Type} (l : List (String × α)) (k : String) :
    Option α × List (String × α) :=
  match l with
  | [] => (Option.none, [])
  | (k2, v) :: rest =>
    if k2 = k then (some v, rest)
    else
      let r := dictPop rest k
      (r.1, (k2, v) :: r.2)

/-- One record of the module-level `sessions` table: the source stores
`'players': [], 'status': 'waiting'` at creation time. -/
structure SessionRec where
  players : List Val
  status : String
  deriving DecidableEq, Repr

/-- One record of the module-level `socket_map` table: the `sessionId` and
`role` taken from the join payload (either may be Python None when the
client omitted the field). -/
structure Binding where
  sessionId : Val
  role : Val
  deriving DecidableEq, Repr

/-- The module-level mutable state of `app.py`: the session registry and the
connection-binding table, both initially empty. -/
structure ServerState where
  sessions : List (String × SessionRec)
  socket_map : List (String × Binding)
  deriving DecidableEq, Repr

/-- One call to flask_socketio's `emit` as the handlers issue it: event name,
payload dict, target room, and whether the sender is included (the
`include_self` keyword, which defaults to true). -/
structure Emit where
  event : String
  payload : Dict
  room : Val
  includeSelf : Bool
  deriving DecidableEq, Repr

/-- Room-scoped delivery provided by the transport: an emit to a room reaches
every connection in the room, minus the sender when `include_self` was
false. -/
def Emit.receivers (e : Emit) (members : List String) (sender : String) :
    List String :=
  if e.includeSelf then members else members.filter (fun c => c ≠ sender)

/-- `get_local_ip`: the UDP-connect address discovery is external I/O, passed
in as `discovered`; the `except Exception` arm substitutes the loopback
address. -/
def get_local_ip (discovered : Except Unit String) : String :=
  match discovered with
  | Except.ok ip => ip
  | Except.error _ => "127.0.0.1"

/-- `create_session` (POST /api/session): `session_id` stands for the
externally generated `str(uuid.uuid4())[:8]`.  Inserts a fresh session
record and returns the JSON response dict. -/
def create_session (session_id : String) (discovered : Except Unit String)
    (st : ServerState) : ServerState × Dict :=
  let ip := get_local_ip discovered
  let st' : ServerState :=
    { st with
      sessions := dictSet st.sessions session_id
        { players := [], status := "waiting" } }
  (st', [("sessionId", Val.str session_id), ("ip", Val.str ip),
         ("port", Val.int 5173)])

/-- `handle_join` (event `join_session`): joins the transport room named by
the payload's sessionId, records the binding for this connection, and
broadcasts `player_joined` or `desktop_ready` according to the role.
Returns the new state, the room joined, and the emits issued. -/
def handle_join (sid : String) (data : Dict) (st : ServerState) :
    ServerState × Val × List Emit :=
  let session_id := Dict.get data "sessionId"
  let role := Dict.get data "role"
  let st' : ServerState :=
    { st with
      socket_map := dictSet st.socket_map sid
        { sessionId := session_id, role := role } }
  let emits : List Emit :=
    if role = Val.str "controller" then
      let name := Dict.getD data "name" (Val.str "Player")
      [{ event := "player_joined", payload := [("name", name)],
         room := session_id, includeSelf := true }]
    else if role = Val.str "desktop" then
      [{ event := "desktop_ready", payload := [("sessionId", session_id)],
         room := session_id, includeSelf := true }]
    else []
  (st', session_id, emits)

/-- `handle_control` (event `control`): reads the sessionId with `.get` but
subscripts `data['direction']` directly, so a payload without a direction
raises a `KeyError` before any emit. -/
def handle_control (data : Dict) : Except PyErr (List Emit) :=
  let session_id := Dict.get data "sessionId"
  match Dict.index data "direction" with
  | Except.error e => Except.error e
  | Except.ok d =>
    Except.ok [{ event := "control", payload := [("direction", d)],
                 room := session_id, includeSelf := false }]

/-- `handle_start` (event `start_game`): broadcasts `game_started` to the
whole room, sender included. -/
def handle_start (data : Dict) : List Emit :=
  [{ event := "game_started", payload := [],
     room := Dict.get data "sessionId", includeSelf := true }]

/-- `handle_end` (event `end_game`): broadcasts `game_ended` with score and
coins defaulting to 0, sender included. -/
def handle_end (data : Dict) : List Emit :=
  [{ event := "game_ended",
     payload := [("score", Dict.getD data "score" (Val.int 0)),
                 ("coins", Dict.getD data "coins" (Val.int 0))],
     room := Dict.get data "sessionId", includeSelf := true }]

/-- `handle_score` (event `score_update`): broadcasts `score_update` with
score and coins defaulting to 0, sender excluded. -/
def handle_score (data : Dict) : List Emit :=
  [{ event := "score_update",
     payload := [("score", Dict.getD data "score" (Val.int 0)),
                 ("coins", Dict.getD data "coins" (Val.int 0))],
     room := Dict.get data "sessionId", includeSelf := false }]

/-- `handle_restart` (event `restart_game`): broadcasts `restart_game` to the
room, sender excluded. -/
def handle_restart (data : Dict) : List Emit :=
  [{ event := "restart_game", payload := [],
     room := Dict.get data "sessionId", includeSelf := false }]

/-- `handle_disconnect` (event `disconnect`): pops this connection's binding
(no-op when none), and broadcasts `controller_disconnected` to the bound
session's room when the removed binding had role controller. -/
def handle_disconnect (sid : String) (st : ServerState) :
    ServerState × List Emit :=
  let r := dictPop st.socket_map sid
  let st' : ServerState := { st with socket_map := r.2 }
  match r.1 with
  | some info =>
    if info.role = Val.str "controller" then
      (st', [{ event := "controller_disconnected", payload := [],
               room := info.sessionId, includeSelf := true }])
    else (st', [])
  | Option.none => (st', [])

/-- An inbound operation on the server, for reasoning about traces. -/
inductive Event where
  | createSession (session_id : String) (discovered : Except Unit String)
  | join (sid : String) (data : Dict)
  | control (sid : String) (data : Dict)
  | startGame (sid : String) (data : Dict)
  | endGame (sid : String) (data : Dict)
  | scoreUpdate (sid : String) (data : Dict)
  | restartGame (sid : String) (data : Dict)
  | disconnect (sid : String)

/-- The state transition an inbound operation performs.  The five pure relay
handlers (`handle_control`, `handle_start`, `handle_end`, `handle_score`,
`handle_restart`) never touch the module-level tables, so the state passes
through them unchanged. -/
def step (st : ServerState) (e : Event) : ServerState :=
  match e with
  | Event.createSession sid disc => (create_session sid disc st).1
  | Event.join sid data => (handle_join sid data st).1
  | Event.control _ _ => st
  | Event.startGame _ _ => st
  | Event.endGame _ _ => st
  | Event.scoreUpdate _ _ => st
  | Event.restartGame _ _ => st
  | Event.disconnect sid => (handle_disconnect sid st).1

/-- The state at process start: both tables empty. -/
def initState : ServerState :=
  { sessions := [], socket_map := [] }

/-- Run a trace of operations from process start. -/
def run (es : List Event) : ServerState :=
  es.foldl step initState

/-- Whether, after one more operation, connection `c` has joined and not yet
disconnected (given that before the operation this held iff `b`). -/
def liveStep (c : String) (b : Bool) (e : Event) : Bool :=
  match e with
  | Event.join sid _ => if sid = c then true else b
  | Event.disconnect sid => if sid = c then false else b
  | _ => b

/-- Whether, after the trace `es`, connection `c` has sent a join and has not
disconnected since. -/
def liveJoined (es : List Event) (c : String) : Bool :=
  es.foldl (liveStep c) false

/-- The keys of an association list. -/
def keysOf {α : Type} (l : List (String × α)) : List String :=
  l.map Prod.fst

/-! ### Association-list lemmas -/

theorem alookup_dictSet {α : Type} (l : List (String × α)) (k c : String)
    (v : α) :
    alookup (dictSet l k v) c = if k = c then some v else alookup l c := by
  induction l with
  | nil => by_cases h : k = c <;> simp [dictSet, alookup, h]
  | cons p rest ih =>
    obtain ⟨k2, w⟩ := p
    by_cases h1 : k2 = k
    · subst h1
      by_cases h2 : k2 = c <;> simp [dictSet, alookup, h2]
    · by_cases h2 : k2 = c
      · subst h2
        have h3 : ¬k = k2 := fun h => h1 h.symm
        simp [dictSet, alookup, h1, h3]
      · simp [dictSet, alookup, h1, h2, ih]

theorem alookup_eq_none {α : Type} (l : List (String × α)) (k : String)
    (h : k ∉ keysOf l) : alookup l k = Option.none := by
  induction l with
  | nil => rfl
  | cons p rest ih =>
    obtain ⟨k2, w⟩ := p
    simp only [keysOf, List.map_cons, List.mem_cons] at h
    push_neg at h
    have h2 : ¬k2 = k := fun hk => h.1 hk.symm
    simp only [alookup, if_neg h2]
    exact ih h.2

theorem dictPop_fst {α : Type} (l : List (String × α)) (k : String) :
    (dictPop l k).1 = alookup l k := by
  induction l with
  | nil => simp [dictPop, alookup]
  | cons p rest ih =>
    obtain ⟨k2, w⟩ := p
    by_cases h : k2 = k <;> simp [dictPop, alookup, h, ih]

theorem dictPop_sublist {α : Type} (l : List (String × α)) (k : String) :
    (dictPop l k).2.Sublist l := by
  induction l with
  | nil => simp [dictPop]
  | cons p rest ih =>
    obtain ⟨k2, w⟩ := p
    by_cases h : k2 = k
    · simp only [dictPop, if_pos h]
      exact List.sublist_cons_self (k2, w) rest
    · simpa [dictPop, h] using List.Sublist.cons₂ (k2, w) ih

theorem dictPop_not_mem {α : Type} (l : List (String × α)) (k : String)
    (h : alookup l k = Option.none) : dictPop l k = (Option.none, l) := by
  induction l with
  | nil => rfl
  | cons p rest ih =>
    obtain ⟨k2, w⟩ := p
    by_cases hk : k2 = k
    · simp [alookup, hk] at h
    · simp only [alookup, if_neg hk] at h
      simp [dictPop, hk, ih h]

theorem alookup_dictPop {α : Type} (l : List (String × α)) (k c : String)
    (hnd : (keysOf l).Nodup) :
    alookup (dictPop l k).2 c =
      if k = c then Option.none else alookup l c := by
  induction l with
  | nil => by_cases h : k = c <;> simp [dictPop, alookup, h]
  | cons p rest ih =>
    obtain ⟨k2, w⟩ := p
    simp only [keysOf, List.map_cons, List.nodup_cons] at hnd
    by_cases h1 : k2 = k
    · subst h1
      by_cases h2 : k2 = c
      · subst h2
        simpa [dictPop, alookup] using alookup_eq_none rest k2 hnd.1
      · simp [dictPop, alookup, h2]
    · by_cases h2 : k2 = c
      · subst h2
        have h3 : ¬k = k2 := fun h => h1 h.symm
        simp [dictPop, alookup, h1, h3]
      · simpa [dictPop, alookup, h1, h2] using ih hnd.2

theorem mem_keysOf_dictSet {α : Type} (l : List (String × α)) (k c : String)
    (v : α) : c ∈ keysOf (dictSet l k v) ↔ c = k ∨ c ∈ keysOf l := by
  induction l with
  | nil => simp [dictSet, keysOf]
  | cons p rest ih =>
    obtain ⟨k2, w⟩ := p
    by_cases h : k2 = k
    · subst h
      simp [dictSet, keysOf]
    · simp only [dictSet, if_neg h, keysOf, List.map_cons, List.mem_cons]
      simp only [keysOf] at ih
      rw [ih]
      tauto

theorem keysOf_dictSet_nodup {α : Type} (l : List (String × α)) (k : String)
    (v : α) (h : (keysOf l).Nodup) : (keysOf (dictSet l k v)).Nodup := by
  induction l with
  | nil => simp [dictSet, keysOf]
  | cons p rest ih =>
    obtain ⟨k2, w⟩ := p
    simp only [keysOf, List.map_cons, List.nodup_cons] at h
    by_cases hk : k2 = k
    · subst hk
      simpa [dictSet, keysOf] using h
    · have hmem : k2 ∉ keysOf (dictSet rest k v) := by
        intro hc
        rcases (mem_keysOf_dictSet rest k k2 v).mp hc with h1 | h1
        · exact hk h1
        · exact h.1 h1
      have heq : dictSet ((k2, w) :: rest) k v = (k2, w) :: dictSet rest k v := by
        simp [dictSet, hk]
      rw [heq]
      simp only [keysOf, List.map_cons, List.nodup_cons]
      exact ⟨hmem, ih h.2⟩

theorem mem_dictSet {α : Type} (l : List (String × α)) (k : String) (v : α)
    (p : String × α) (hp : p ∈ dictSet l k v) : p = (k, v) ∨ p ∈ l := by
  induction l with
  | nil => simpa [dictSet] using hp
  | cons q rest ih =>
    obtain ⟨k2, w⟩ := q
    by_cases h : k2 = k
    · subst h
      simp [dictSet] at hp
      tauto
    · simp [dictSet, h] at hp
      rcases hp with h1 | h1
      · exact Or.inr (by simp [h1])
      · rcases ih h1 with h2 | h2
        · exact Or.inl h2
        · exact Or.inr (by simp [h2])

theorem dictSet_of_not_mem {α : Type} (l : List (String × α)) (k : String)
    (v : α) (h : k ∉ keysOf l) : dictSet l k v = l ++ [(k, v)] := by
  induction l with
  | nil => simp [dictSet]
  | cons p rest ih =>
    obtain ⟨k2, w⟩ := p
    simp only [keysOf, List.map_cons, List.mem_cons] at h
    push_neg at h
    have h2 : ¬k2 = k := fun hk => h.1 hk.symm
    simp [dictSet, h2, ih (by simpa [keysOf] using h.2)]

/-! ### Delivery lemmas -/

theorem mem_receivers_of_not_self (e : Emit) (he : e.includeSelf = false)
    (members : List String) (sender c : String) :
    c ∈ e.receivers members sender ↔ c ∈ members ∧ c ≠ sender := by
  simp [Emit.receivers, he, List.mem_filter]

theorem mem_receivers_of_self (e : Emit) (he : e.includeSelf = true)
    (members : List String) (sender c : String) :
    c ∈ e.receivers members sender ↔ c ∈ members := by
  simp [Emit.receivers, he]

/-! ### Shape lemmas for the handlers and the step function -/

theorem handle_join_fst (sid : String) (data : Dict) (st : ServerState) :
    (handle_join sid data st).1 =
      { st with
        socket_map := dictSet st.socket_map sid
          { sessionId := Dict.get data "sessionId",
            role := Dict.get data "role" } } := rfl

theorem handle_disconnect_fst (sid : String) (st : ServerState) :
    (handle_disconnect sid st).1 =
      { st with socket_map := (dictPop st.socket_map sid).2 } := by
  unfold handle_disconnect
  rcases h : (dictPop st.socket_map sid).1 with _ | info
  · simp [h]
  · simp only [h]
    by_cases hr : info.role = Val.str "controller" <;> simp [hr]

theorem step_socket_nodup (st : ServerState) (e : Event)
    (h : (keysOf st.socket_map).Nodup) :
    (keysOf (step st e).socket_map).Nodup := by
  cases e with
  | createSession sid disc => exact h
  | join sid data =>
    simpa [step, handle_join_fst] using keysOf_dictSet_nodup st.socket_map sid _ h
  | control sid data => exact h
  | startGame sid data => exact h
  | endGame sid data => exact h
  | scoreUpdate sid data => exact h
  | restartGame sid data => exact h
  | disconnect sid =>
    simp only [step, handle_disconnect_fst]
    exact List.Nodup.sublist
      (List.Sublist.map Prod.fst (dictPop_sublist st.socket_map sid)) h

theorem foldl_step_nodup (es : List Event) (st : ServerState)
    (h : (keysOf st.socket_map).Nodup) :
    (keysOf (es.foldl step st).socket_map).Nodup := by
  induction es generalizing st with
  | nil => exact h
  | cons e rest ih => exact ih (step st e) (step_socket_nodup st e h)

theorem step_live_binding (st : ServerState) (e : Event) (c : String)
    (h : (keysOf st.socket_map).Nodup) :
    (alookup (step st e).socket_map c).isSome =
      liveStep c (alookup st.socket_map c).isSome e := by
  cases e with
  | createSession sid disc => rfl
  | join sid data =>
    simp only [step, handle_join_fst, liveStep, alookup_dictSet]
    by_cases hc : sid = c <;> simp [hc]
  | control sid data => rfl
  | startGame sid data => rfl
  | endGame sid data => rfl
  | scoreUpdate sid data => rfl
  | restartGame sid data => rfl
  | disconnect sid =>
    simp only [step, handle_disconnect_fst, liveStep, alookup_dictPop _ _ _ h]
    by_cases hc : sid = c <;> simp [hc]

theorem foldl_step_live (es : List Event) (st : ServerState) (c : String)
    (h : (keysOf st.socket_map).Nodup) :
    (alookup (es.foldl step st).socket_map c).isSome =
      es.foldl (liveStep c) (alookup st.socket_map c).isSome := by
  induction es generalizing st with
  | nil => rfl
  | cons e rest ih =>
    simp only [List.foldl_cons]
    rw [ih (step st e) (step_socket_nodup st e h),
        step_live_binding st e c h]

theorem step_sessions_waiting (st : ServerState) (e : Event)
    (h : ∀ p : String × SessionRec, p ∈ st.sessions →
      p.2 = { players := [], status := "waiting" }) :
    ∀ p : String × SessionRec, p ∈ (step st e).sessions →
      p.2 = { players := [], status := "waiting" } := by
  cases e with
  | createSession sid disc =>
    intro p hp
    rcases mem_dictSet st.sessions sid _ p hp with h1 | h1
    · rw [h1]
    · exact h p h1
  | join sid data => exact h
  | control sid data => exact h
  | startGame sid data => exact h
  | endGame sid data => exact h
  | scoreUpdate sid data => exact h
  | restartGame sid data => exact h
  | disconnect sid =>
    simp only [step, handle_disconnect_fst]
    exact h

theorem foldl_step_waiting (es : List Event) (st : ServerState)
    (h : ∀ p : String × SessionRec, p ∈ st.sessions →
      p.2 = { players := [], status := "waiting" }) :
    ∀ p : String × SessionRec, p ∈ (es.foldl step st).sessions →
      p.2 = { players := [], status := "waiting" } := by
  induction es generalizing st with
  | nil => exact h
  | cons e rest ih => exact ih (step st e) (step_sessions_waiting st e h)

/-! ### Claim theorems -/

/-- Claim C5: session creation always succeeds with no error surfaced to the
caller: the response dict always carries the generated sessionId and the
constant port 5173, and when network-address discovery fails the ip field is
the loopback address 127.0.0.1 rather than an error. -/
theorem create_session_always_succeeds (session_id : String)
    (discovered : Except Unit String) (st : ServerState) :
    Dict.get (create_session session_id discovered st).2 "sessionId"
        = Val.str session_id
    ∧ Dict.get (create_session session_id discovered st).2 "port"
        = Val.int 5173
    ∧ (discovered = Except.error () →
        Dict.get (create_session session_id discovered st).2 "ip"
          = Val.str "127.0.0.1")
    ∧ (∀ ip : String, discovered = Except.ok ip →
        Dict.get (create_session session_id discovered st).2 "ip"
          = Val.str ip) := by
  refine ⟨rfl, rfl, ?_, ?_⟩
  · intro h
    subst h
    rfl
  · intro ip h
    subst h
    rfl

/-- Witness for C5 at a concrete failing discovery. -/
theorem create_session_always_succeeds_witness :
    Dict.get (create_session "ab12cd34" (Except.error ()) initState).2 "ip"
        = Val.str "127.0.0.1"
    ∧ Dict.get (create_session "ab12cd34" (Except.error ()) initState).2 "port"
        = Val.int 5173 := by
  have h := create_session_always_succeeds "ab12cd34" (Except.error ()) initState
  exact ⟨h.2.2.1 rfl, h.2.1⟩

/-- Claim C6: creating a session with a fresh identifier (the spec treats the
8-character token generator as an external collaborator producing unique
tokens) inserts a new record with status waiting and an empty member list
under that identifier, leaves every other live session record in place, and
returns that identifier. -/
theorem create_session_fresh_insert (session_id : String)
    (discovered : Except Unit String) (st : ServerState)
    (hfresh : session_id ∉ keysOf st.sessions) :
    alookup (create_session session_id discovered st).1.sessions session_id
        = some { players := [], status := "waiting" }
    ∧ (∀ p : String × SessionRec, p ∈ st.sessions →
        p ∈ (create_session session_id discovered st).1.sessions)
    ∧ (∀ c : String, c ≠ session_id →
        alookup (create_session session_id discovered st).1.sessions c
          = alookup st.sessions c)
    ∧ Dict.get (create_session session_id discovered st).2 "sessionId"
        = Val.str session_id := by
  refine ⟨?_, ?_, ?_, rfl⟩
  · simp [create_session, alookup_dictSet]
  · intro p hp
    simp only [create_session]
    rw [dictSet_of_not_mem st.sessions session_id _ hfresh]
    exact List.mem_append_left _ hp
  · intro c hc
    simp only [create_session]
    rw [alookup_dictSet, if_neg (fun h => hc h.symm)]

/-- Witness for C6 on the empty registry. -/
theorem create_session_fresh_insert_witness :
    alookup (create_session "ab12cd34" (Except.ok "192.168.1.20")
        initState).1.sessions "ab12cd34"
      = some { players := [], status := "waiting" } := by
  have h := create_session_fresh_insert "ab12cd34" (Except.ok "192.168.1.20")
    initState (by simp [initState, keysOf])
  exact h.1

/-- Claim C7: for end_game and score_update payloads that omit score and/or
coins, the broadcast payload substitutes 0 for each missing field; with both
fields missing the broadcasts are exactly game_ended and score_update with
score 0 and coins 0. -/
theorem end_score_default_zero (data : Dict) :
    (alookup data "score" = Option.none →
      (∃ e : Emit, handle_end data = [e]
          ∧ Dict.get e.payload "score" = Val.int 0)
      ∧ (∃ e : Emit, handle_score data = [e]
          ∧ Dict.get e.payload "score" = Val.int 0))
    ∧ (alookup data "coins" = Option.none →
      (∃ e : Emit, handle_end data = [e]
          ∧ Dict.get e.payload "coins" = Val.int 0)
      ∧ (∃ e : Emit, handle_score data = [e]
          ∧ Dict.get e.payload "coins" = Val.int 0))
    ∧ (alookup data "score" = Option.none →
       alookup data "coins" = Option.none →
      handle_end data =
        [{ event := "game_ended",
           payload := [("score", Val.int 0), ("coins", Val.int 0)],
           room := Dict.get data "sessionId", includeSelf := true }]
      ∧ handle_score data =
        [{ event := "score_update",
           payload := [("score", Val.int 0), ("coins", Val.int 0)],
           room := Dict.get data "sessionId", includeSelf := false }]) := by
  refine ⟨?_, ?_, ?_⟩
  · intro hs
    constructor
    · exact ⟨_, rfl, by simp [handle_end, Dict.get, Dict.getD, alookup, hs]⟩
    · exact ⟨_, rfl, by simp [handle_score, Dict.get, Dict.getD, alookup, hs]⟩
  · intro hc
    constructor
    · exact ⟨_, rfl, by simp [handle_end, Dict.get, Dict.getD, alookup, hc]⟩
    · exact ⟨_, rfl, by simp [handle_score, Dict.get, Dict.getD, alookup, hc]⟩
  · intro hs hc
    constructor
    · simp [handle_end, Dict.getD, hs, hc]
    · simp [handle_score, Dict.getD, hs, hc]

/-- Witness for C7: an end_game payload with only a sessionId. -/
theorem end_score_default_zero_witness :
    handle_end [("sessionId", Val.str "s")] =
      [{ event := "game_ended",
         payload := [("score", Val.int 0), ("coins", Val.int 0)],
         room := Val.str "s", includeSelf := true }] := by
  have h := end_score_default_zero [("sessionId", Val.str "s")]
  exact (h.2.2 rfl rfl).1

/-- Claim C10: a join with role controller whose payload omits the name field
broadcasts player_joined with the default name Player. -/
theorem join_default_name (sid : String) (data : Dict) (st : ServerState)
    (hrole : Dict.get data "role" = Val.str "controller")
    (hname : alookup data "name" = Option.none) :
    (handle_join sid data st).2.2 =
      [{ event := "player_joined",
         payload := [("name", Val.str "Player")],
         room := Dict.get data "sessionId", includeSelf := true }] := by
  simp [handle_join, hrole, Dict.getD, hname]

/-- Witness for C10 at a concrete nameless controller join. -/
theorem join_default_name_witness :
    (handle_join "c1" [("sessionId", Val.str "s"),
        ("role", Val.str "controller")] initState).2.2 =
      [{ event := "player_joined",
         payload := [("name", Val.str "Player")],
         room := Val.str "s", includeSelf := true }] := by
  have h := join_default_name "c1"
    [("sessionId", Val.str "s"), ("role", Val.str "controller")]
    initState rfl rfl
  exact h

/-- Claim C4: every join records a binding (for any role value) and leaves the
session table untouched (no validation against existing sessions, for every
state and every sessionId value); a controller join broadcasts player_joined
with the name to the room sender-included, a desktop join broadcasts
desktop_ready with the sessionId sender-included, and any other role value
produces no broadcast and no error. -/
theorem join_role_dispatch (sid : String) (data : Dict) (st : ServerState) :
    alookup (handle_join sid data st).1.socket_map sid =
      some { sessionId := Dict.get data "sessionId",
             role := Dict.get data "role" }
    ∧ (handle_join sid data st).1.sessions = st.sessions
    ∧ (Dict.get data "role" = Val.str "controller" →
        (handle_join sid data st).2.2 =
          [{ event := "player_joined",
             payload := [("name", Dict.getD data "name" (Val.str "Player"))],
             room := Dict.get data "sessionId", includeSelf := true }])
    ∧ (Dict.get data "role" = Val.str "desktop" →
        (handle_join sid data st).2.2 =
          [{ event := "desktop_ready",
             payload := [("sessionId", Dict.get data "sessionId")],
             room := Dict.get data "sessionId", includeSelf := true }])
    ∧ (Dict.get data "role" ≠ Val.str "controller" →
       Dict.get data "role" ≠ Val.str "desktop" →
        (handle_join sid data st).2.2 = []) := by
  refine ⟨?_, rfl, ?_, ?_, ?_⟩
  · simp [handle_join_fst, alookup_dictSet]
  · intro h
    simp [handle_join, h]
  · intro h
    simp [handle_join, h]
  · intro h1 h2
    simp [handle_join, h1, h2]

/-- Witness for C4: a join with an unknown role value is accepted silently
with the binding recorded, against a registry that does not contain the
session. -/
theorem join_role_dispatch_witness :
    alookup (handle_join "c1" [("sessionId", Val.str "nosuch"),
        ("role", Val.str "spectator")] initState).1.socket_map "c1" =
      some { sessionId := Val.str "nosuch", role := Val.str "spectator" }
    ∧ (handle_join "c1" [("sessionId", Val.str "nosuch"),
        ("role", Val.str "spectator")] initState).2.2 = [] := by
  have h := join_role_dispatch "c1"
    [("sessionId", Val.str "nosuch"), ("role", Val.str "spectator")] initState
  exact ⟨h.1, h.2.2.2.2 (by decide) (by decide)⟩

/-- Claim C1, counterexample: a control payload that carries a sessionId but
no direction field makes the handler raise a KeyError (from the bare
subscript data['direction']) rather than return without error, refuting the
claim that no error is raised. -/
theorem control_missing_direction_cex :
    handle_control [("sessionId", Val.str "s1")] =
      Except.error (PyErr.keyError "direction") := rfl

/-- Claim C1 as amended: for every inbound control payload lacking the
direction field, the handler issues no broadcast and raises a KeyError
(which the SocketIO framework above this code catches, so the process does
not crash), regardless of whether sessionId is present. -/
theorem control_missing_direction (data : Dict)
    (h : alookup data "direction" = Option.none) :
    handle_control data = Except.error (PyErr.keyError "direction") := by
  simp [handle_control, Dict.index, h]

/-- Witness for the amended C1 at a payload that does carry a sessionId. -/
theorem control_missing_direction_witness :
    handle_control [("sessionId", Val.str "s2")] =
      Except.error (PyErr.keyError "direction") := by
  have h := control_missing_direction [("sessionId", Val.str "s2")] rfl
  exact h

/-- Claim C2: for every inbound event carrying a sessionId, the emit goes to
that session's room; for control, score_update and restart_game the sender
is excluded from the receivers while every other room member receives it,
for game_started and game_ended every room member including the sender
receives it; and the control payload forwards the direction value
unchanged. -/
theorem fanout_sender_semantics (sid : String) (data : Dict) (sv dir : Val)
    (members : List String)
    (hs : alookup data "sessionId" = some sv)
    (hd : Dict.index data "direction" = Except.ok dir)
    (hmem : sid ∈ members) :
    (∃ e : Emit, handle_control data = Except.ok [e]
      ∧ e.room = sv ∧ e.payload = [("direction", dir)]
      ∧ sid ∉ e.receivers members sid
      ∧ ∀ c ∈ members, c ≠ sid → c ∈ e.receivers members sid)
    ∧ (∃ e : Emit, handle_score data = [e] ∧ e.room = sv
      ∧ sid ∉ e.receivers members sid
      ∧ ∀ c ∈ members, c ≠ sid → c ∈ e.receivers members sid)
    ∧ (∃ e : Emit, handle_restart data = [e] ∧ e.room = sv
      ∧ sid ∉ e.receivers members sid
      ∧ ∀ c ∈ members, c ≠ sid → c ∈ e.receivers members sid)
    ∧ (∃ e : Emit, handle_start data = [e] ∧ e.room = sv
      ∧ sid ∈ e.receivers members sid
      ∧ ∀ c ∈ members, c ∈ e.receivers members sid)
    ∧ (∃ e : Emit, handle_end data = [e] ∧ e.room = sv
      ∧ sid ∈ e.receivers members sid
      ∧ ∀ c ∈ members, c ∈ e.receivers members sid) := by
  have hget : Dict.get data "sessionId" = sv := by simp [Dict.get, hs]
  refine ⟨?_, ?_, ?_, ?_, ?_⟩
  · refine ⟨Emit.mk "control" [("direction", dir)] sv false,
      ?_, rfl, rfl, ?_, ?_⟩
    · simp [handle_control, hd, hget]
    · simp [Emit.receivers]
    · intro c hc hne
      simp [Emit.receivers, List.mem_filter, hc, hne]
  · refine ⟨Emit.mk "score_update"
      [("score", Dict.getD data "score" (Val.int 0)),
       ("coins", Dict.getD data "coins" (Val.int 0))] sv false,
      ?_, rfl, ?_, ?_⟩
    · simp [handle_score, hget]
    · simp [Emit.receivers]
    · intro c hc hne
      simp [Emit.receivers, List.mem_filter, hc, hne]
  · refine ⟨Emit.mk "restart_game" [] sv false, ?_, rfl, ?_, ?_⟩
    · simp [handle_restart, hget]
    · simp [Emit.receivers]
    · intro c hc hne
      simp [Emit.receivers, List.mem_filter, hc, hne]
  · refine ⟨Emit.mk "game_started" [] sv true, ?_, rfl, ?_, ?_⟩
    · simp [handle_start, hget]
    · simpa [Emit.receivers] using hmem
    · intro c hc
      simpa [Emit.receivers] using hc
  · refine ⟨Emit.mk "game_ended"
      [("score", Dict.getD data "score" (Val.int 0)),
       ("coins", Dict.getD data "coins" (Val.int 0))] sv true,
      ?_, rfl, ?_, ?_⟩
    · simp [handle_end, hget]
    · simpa [Emit.receivers] using hmem
    · intro c hc
      simpa [Emit.receivers] using hc

/-- Witness for C2: in a two-member room, a control event from one member is
received by the other member and not echoed to the sender. -/
theorem fanout_sender_semantics_witness :
    ∃ e : Emit,
      handle_control [("sessionId", Val.str "s"),
          ("direction", Val.str "left")] = Except.ok [e]
      ∧ e.payload = [("direction", Val.str "left")]
      ∧ "a" ∉ e.receivers ["a", "b"] "a"
      ∧ "b" ∈ e.receivers ["a", "b"] "a" := by
  have h := fanout_sender_semantics "a"
    [("sessionId", Val.str "s"), ("direction", Val.str "left")]
    (Val.str "s") (Val.str "left") ["a", "b"] rfl rfl (by simp)
  obtain ⟨⟨e, h1, _, h3, h4, h5⟩, _⟩ := h
  exact ⟨e, h1, h3, h4, h5 "b" (by simp) (by decide)⟩

/-- Claim C3: on disconnect the connection's binding is removed exactly once
(read-and-delete: afterwards no binding for it remains and every other
connection's binding is untouched); when the removed binding had role
controller exactly one controller_disconnected broadcast goes to that
binding's session room; when the role was not controller, or no binding
existed, no broadcast is sent and no error is raised (for a never-joined
connection the state is completely unchanged). -/
theorem disconnect_cleanup (sid : String) (st : ServerState)
    (hnd : (keysOf st.socket_map).Nodup) :
    alookup (handle_disconnect sid st).1.socket_map sid = Option.none
    ∧ (∀ c : String, c ≠ sid →
        alookup (handle_disconnect sid st).1.socket_map c
          = alookup st.socket_map c)
    ∧ (handle_disconnect sid st).1.sessions = st.sessions
    ∧ (∀ b : Binding, alookup st.socket_map sid = some b →
        b.role = Val.str "controller" →
        (handle_disconnect sid st).2 =
          [{ event := "controller_disconnected", payload := [],
             room := b.sessionId, includeSelf := true }])
    ∧ (∀ b : Binding, alookup st.socket_map sid = some b →
        b.role ≠ Val.str "controller" → (handle_disconnect sid st).2 = [])
    ∧ (alookup st.socket_map sid = Option.none →
        (handle_disconnect sid st).2 = []
        ∧ (handle_disconnect sid st).1 = st) := by
  refine ⟨?_, ?_, ?_, ?_, ?_, ?_⟩
  · rw [handle_disconnect_fst]
    simp [alookup_dictPop _ _ _ hnd]
  · intro c hc
    rw [handle_disconnect_fst]
    simp only [alookup_dictPop _ _ _ hnd]
    rw [if_neg (fun h => hc h.symm)]
  · rw [handle_disconnect_fst]
  · intro b hb hrole
    have h1 : (dictPop st.socket_map sid).1 = some b :=
      (dictPop_fst st.socket_map sid).trans hb
    simp [handle_disconnect, h1, hrole]
  · intro b hb hrole
    have h1 : (dictPop st.socket_map sid).1 = some b :=
      (dictPop_fst st.socket_map sid).trans hb
    simp [handle_disconnect, h1, hrole]
  · intro hnone
    have h1 : dictPop st.socket_map sid = (Option.none, st.socket_map) :=
      dictPop_not_mem st.socket_map sid hnone
    constructor
    · simp [handle_disconnect, h1]
    · rw [handle_disconnect_fst, h1]

/-- Witness for C3: disconnecting a bound controller removes the binding and
broadcasts controller_disconnected to its session room; disconnecting a
never-joined connection on the empty state changes nothing. -/
theorem disconnect_cleanup_witness :
    (handle_disconnect "c1"
        { sessions := [],
          socket_map :=
            [("c1", { sessionId := Val.str "s",
                      role := Val.str "controller" })] }).2 =
      [{ event := "controller_disconnected", payload := [],
         room := Val.str "s", includeSelf := true }]
    ∧ alookup (handle_disconnect "c1"
        { sessions := [],
          socket_map :=
            [("c1", { sessionId := Val.str "s",
                      role := Val.str "controller" })] }).1.socket_map "c1"
      = Option.none
    ∧ (handle_disconnect "ghost" initState).2 = []
    ∧ (handle_disconnect "ghost" initState).1 = initState := by
  have h1 := disconnect_cleanup "c1"
    { sessions := [],
      socket_map :=
        [("c1", { sessionId := Val.str "s", role := Val.str "controller" })] }
    (by simp [keysOf])
  have h2 := disconnect_cleanup "ghost" initState (by simp [initState, keysOf])
  exact ⟨h1.2.2.2.1 _ rfl rfl, h1.1, (h2.2.2.2.2.2 rfl).1, (h2.2.2.2.2.2 rfl).2⟩

/-- Claim C8: after any trace of operations from process start, the binding
table holds at most one entry per connection identifier (its key list has no
duplicates), a binding for a connection exists exactly when that connection
has joined and not disconnected since, and a further join by an already-bound
connection overwrites its binding with the new one (last join wins) while
keeping the key list duplicate-free. -/
theorem binding_table_single_entry (es : List Event) (c : String)
    (data : Dict) :
    (keysOf (run es).socket_map).Nodup
    ∧ (alookup (run es).socket_map c).isSome = liveJoined es c
    ∧ alookup (handle_join c data (run es)).1.socket_map c =
        some { sessionId := Dict.get data "sessionId",
               role := Dict.get data "role" }
    ∧ (keysOf (handle_join c data (run es)).1.socket_map).Nodup := by
  have hinit : (keysOf (initState).socket_map).Nodup := by
    simp [initState, keysOf]
  have hnd := foldl_step_nodup es initState hinit
  refine ⟨hnd, ?_, ?_, ?_⟩
  · have h := foldl_step_live es initState c hinit
    simpa [run, liveJoined, initState, alookup] using h
  · simp [handle_join_fst, alookup_dictSet]
  · simpa [handle_join_fst] using
      keysOf_dictSet_nodup (run es).socket_map c _ hnd

/-- Claim C9: no relay-engine operation modifies the session table — join and
disconnect leave it exactly as it was, and every non-creation step leaves it
exactly as it was — and after any trace every session record still has an
empty players list and status waiting. -/
theorem relay_preserves_sessions (st : ServerState) (c : String) (data : Dict)
    (es : List Event) (p : String × SessionRec)
    (hp : p ∈ (run es).sessions) :
    (handle_join c data st).1.sessions = st.sessions
    ∧ (handle_disconnect c st).1.sessions = st.sessions
    ∧ (∀ e : Event, (∀ (s : String) (d : Except Unit String),
        e ≠ Event.createSession s d) → (step st e).sessions = st.sessions)
    ∧ p.2.players = [] ∧ p.2.status = "waiting" := by
  refine ⟨rfl, ?_, ?_, ?_, ?_⟩
  · rw [handle_disconnect_fst]
  · intro e he
    cases e with
    | createSession s d => exact absurd rfl (he s d)
    | join sid d => rfl
    | control sid d => rfl
    | startGame sid d => rfl
    | endGame sid d => rfl
    | scoreUpdate sid d => rfl
    | restartGame sid d => rfl
    | disconnect sid => rw [step, handle_disconnect_fst]
  · have h := foldl_step_waiting es initState (by simp [initState]) p hp
    rw [h]
  · have h := foldl_step_waiting es initState (by simp [initState]) p hp
    rw [h]

/-- Witness for C9: the session created by a concrete creation request still
has an empty players list and status waiting after a join, a control event
and a disconnect on that session. -/
theorem relay_preserves_sessions_witness :
    ("ab12cd34",
      ({ players := [], status := "waiting" } : SessionRec)).2.players = []
    ∧ ("ab12cd34",
      ({ players := [], status := "waiting" } : SessionRec)).2.status
        = "waiting" := by
  have h := relay_preserves_sessions initState "c1" []
    [Event.createSession "ab12cd34" (Except.ok "192.168.1.20"),
     Event.join "c1" [("sessionId", Val.str "ab12cd34"),
       ("role", Val.str "controller")],
     Event.control "c1" [("sessionId", Val.str "ab12cd34"),
       ("direction", Val.str "left")],
     Event.disconnect "c1"]
    ("ab12cd34", { players := [], status := "waiting" })
    (by simp [run, step, initState, create_session, get_local_ip,
      handle_join_fst, handle_disconnect_fst, dictSet, dictPop])
  exact ⟨h.2.2.2.1, h.2.2.2.2⟩

end RelicRush
